import Mathlib

/-!
Verification development for the SQL-like statement interpreter of the
RDBMS-Project repository (src/query.js, src/main.js, src/database.js).

The JavaScript code is shallowly embedded: the persisted localStorage keys
(database collection, snapshot stack, selected database id) become an
explicit record `DbState`; JavaScript string routines (trim, toUpperCase,
split, substring, Number, parseInt, loose equality and relational
comparison) are modelled by executable Lean functions; the regular
expressions used by the statement parsers are modelled by explicit
backtracking matchers that reproduce the leftmost-match, greedy and lazy
quantifier preferences of the JavaScript engine.  JavaScript numbers are
modelled by rationals; exotic numeric forms (hexadecimal, Infinity) are
treated as NaN, which no theorem below exercises.  A JavaScript runtime
crash (TypeError) is modelled by a dedicated error value.
-/

namespace RDBMS

/-! ## Character classes (as used by the JavaScript regular expressions) -/

/-- The regex class backslash-w: ASCII letters, digits and underscore. -/
def wordChar (c : Char) : Bool :=
  decide ((65 ≤ c.toNat ∧ c.toNat ≤ 90) ∨ (97 ≤ c.toNat ∧ c.toNat ≤ 122) ∨
    (48 ≤ c.toNat ∧ c.toNat ≤ 57) ∨ c.toNat = 95)

/-- The regex class backslash-s and the character set trimmed by
String.prototype.trim: JavaScript whitespace and line terminators. -/
def jsSpaceChar (c : Char) : Bool :=
  decide (c.toNat = 9 ∨ c.toNat = 10 ∨ c.toNat = 11 ∨ c.toNat = 12 ∨ c.toNat = 13 ∨
    c.toNat = 32 ∨ c.toNat = 160 ∨ c.toNat = 0x1680 ∨
    (0x2000 ≤ c.toNat ∧ c.toNat ≤ 0x200a) ∨ c.toNat = 0x2028 ∨ c.toNat = 0x2029 ∨
    c.toNat = 0x202f ∨ c.toNat = 0x205f ∨ c.toNat = 0x3000 ∨ c.toNat = 0xfeff)

/-- The regex dot without the s flag: any character except line terminators. -/
def jsDotChar (c : Char) : Bool :=
  decide (¬ (c.toNat = 10 ∨ c.toNat = 13 ∨ c.toNat = 0x2028 ∨ c.toNat = 0x2029))

/-- The regex class of the condition operator characters in
filterRowsByCondition, namely the class listing equals, greater, less. -/
def condOpChar (c : Char) : Bool :=
  decide (c = '=' ∨ c = '>' ∨ c = '<')

/-! ## JavaScript string primitives -/

/-- ASCII uppercasing of one character (String.prototype.toUpperCase on the
ASCII inputs the interpreter deals with). -/
def jsToUpperChar (c : Char) : Char :=
  if 97 ≤ c.toNat ∧ c.toNat ≤ 122 then Char.ofNat (c.toNat - 32) else c

/-- ASCII lowercasing of one character. -/
def jsToLowerChar (c : Char) : Char :=
  if 65 ≤ c.toNat ∧ c.toNat ≤ 90 then Char.ofNat (c.toNat + 32) else c

/-- String.prototype.toUpperCase. -/
def jsToUpper (s : String) : String := String.mk (s.data.map jsToUpperChar)

/-- String.prototype.toLowerCase. -/
def jsToLower (s : String) : String := String.mk (s.data.map jsToLowerChar)

/-- Trim JavaScript whitespace from both ends of a character list. -/
def trimList (l : List Char) : List Char :=
  ((l.dropWhile jsSpaceChar).reverse.dropWhile jsSpaceChar).reverse

/-- String.prototype.trim. -/
def jsTrim (s : String) : String := String.mk (trimList s.data)

/-- Boolean prefix test on character lists. -/
def isPrefixList : List Char → List Char → Bool
  | [], _ => true
  | _ :: _, [] => false
  | p :: ps, c :: cs => (p == c) && isPrefixList ps cs

/-- String.prototype.startsWith. -/
def jsStartsWith (s pre : String) : Bool := isPrefixList pre.data s.data

/-- String.prototype.endsWith. -/
def jsEndsWith (s suf : String) : Bool := isPrefixList suf.data.reverse s.data.reverse

/-- Substring containment (String.prototype.includes). -/
def containsList : List Char → List Char → Bool
  | _, [] => false
  | pat, s@(_ :: rest) => isPrefixList pat s || containsList pat rest

/-- String.prototype.includes: note that an empty pattern is found in the
empty string as well, matching JavaScript. -/
def jsIncludes (s pat : String) : Bool :=
  isPrefixList pat.data s.data || containsList pat.data s.data

/-- Split a character list on a separator character; like the JavaScript
split, the result always has at least one (possibly empty) chunk. -/
def splitOnCharList (sep : Char) : List Char → List (List Char)
  | [] => [[]]
  | c :: cs =>
    let r := splitOnCharList sep cs
    if c = sep then [] :: r
    else
      match r with
      | h :: t => (c :: h) :: t
      | [] => [[c]]

/-- String.prototype.split with a one-character separator. -/
def jsSplitOnChar (sep : Char) (s : String) : List String :=
  (splitOnCharList sep s.data).map String.mk

/-- String.prototype.substring with the JavaScript clamping of both indices
to the string length and swapping them when start exceeds end. -/
def jsSubstring (s : String) (a b : Int) : String :=
  let n : Int := s.data.length
  let a1 := min (max a 0) n
  let b1 := min (max b 0) n
  let lo := min a1 b1
  let hi := max a1 b1
  String.mk ((s.data.take hi.toNat).drop lo.toNat)

/-- String.prototype.replace with a plain-string pattern and empty
replacement: remove the first occurrence of the pattern. -/
def replaceFirstList (pat : List Char) : List Char → List Char
  | [] => []
  | c :: cs =>
    if isPrefixList pat (c :: cs) then (c :: cs).drop pat.length
    else c :: replaceFirstList pat cs

/-- Remove the first occurrence of a pattern from a string (the only use of
String.prototype.replace with a plain pattern in the interpreter). -/
def jsRemoveFirst (s pat : String) : String :=
  if isPrefixList pat.data s.data then String.mk (s.data.drop pat.data.length)
  else String.mk (replaceFirstList pat.data s.data)

/-! ## Backtracking matchers for the statement regular expressions

Each JavaScript regular expression of query.js is modelled by a matcher
that enumerates quantifier splits in the preference order of the JavaScript
engine (greedy quantifiers longest first, lazy quantifiers shortest first,
optional groups attempted before being skipped) and takes the first overall
success; an unanchored pattern is additionally searched at every start
position, leftmost first. -/

/-- All ways to consume a nonempty run of class characters, longest first
(a greedy plus quantifier). -/
def plusSplitsGreedy (p : Char → Bool) (s : List Char) : List (List Char × List Char) :=
  let n := (s.takeWhile p).length
  (List.range n).map (fun j => (s.take (n - j), s.drop (n - j)))

/-- All ways to consume a possibly-empty run of class characters, longest
first (a greedy star quantifier). -/
def starSplitsGreedy (p : Char → Bool) (s : List Char) : List (List Char × List Char) :=
  let n := (s.takeWhile p).length
  (List.range (n + 1)).map (fun j => (s.take (n - j), s.drop (n - j)))

/-- All ways to consume a nonempty run of class characters, shortest first
(a lazy plus quantifier). -/
def plusSplitsLazy (p : Char → Bool) (s : List Char) : List (List Char × List Char) :=
  let n := (s.takeWhile p).length
  (List.range n).map (fun j => (s.take (j + 1), s.drop (j + 1)))

/-- Match a literal case-insensitively (the pattern is given uppercase, as
in the source regular expressions, which all carry the i flag). -/
def litCI : List Char → List Char → Option (List Char)
  | [], s => some s
  | _ :: _, [] => none
  | p :: ps, c :: cs => if jsToUpperChar c = p then litCI ps cs else none

/-- Match one exact character. -/
def litChar (ch : Char) : List Char → Option (List Char)
  | [] => none
  | c :: cs => if c = ch then some cs else none

/-- Try a matcher at every start position, leftmost first (an unanchored
regular expression). -/
def scanAux (f : List Char → Option α) : List Char → Option α
  | [] => f []
  | s@(_ :: cs) => (f s).orElse (fun _ => scanAux f cs)

/-- Matcher for the SELECT pattern
SELECT backslash-s+ lazy-dot-plus backslash-s+ FROM backslash-s+ word-plus
followed by an optional WHERE group, at one start position.  Returns the
captured column text, table name and optional condition text. -/
def selectMatchAt (s : List Char) : Option (List Char × List Char × Option (List Char)) :=
  (litCI "SELECT".data s).bind fun r0 =>
  (plusSplitsGreedy jsSpaceChar r0).findSome? fun (_, r1) =>
  (plusSplitsLazy jsDotChar r1).findSome? fun (cols, r2) =>
  (plusSplitsGreedy jsSpaceChar r2).findSome? fun (_, r3) =>
  (litCI "FROM".data r3).bind fun r4 =>
  (plusSplitsGreedy jsSpaceChar r4).findSome? fun (_, r5) =>
  (plusSplitsGreedy wordChar r5).findSome? fun (tbl, r6) =>
  some (cols, tbl, whereGroup r6)
where
  /-- The optional trailing group backslash-s+ WHERE backslash-s+ dot-plus;
  when it fails the group matches empty and the capture is undefined. -/
  whereGroup (r : List Char) : Option (List Char) :=
    (plusSplitsGreedy jsSpaceChar r).findSome? fun (_, a) =>
    (litCI "WHERE".data a).bind fun b =>
    (plusSplitsGreedy jsSpaceChar b).findSome? fun (_, c) =>
    (plusSplitsGreedy jsDotChar c).findSome? fun (w, _) => some w

/-- Matcher for the INSERT pattern
INSERT backslash-s+ INTO backslash-s+ word-plus backslash-s* open-paren
lazy-dot-plus close-paren backslash-s* VALUES backslash-s* open-paren
lazy-dot-plus close-paren, at one start position. -/
def insertMatchAt (s : List Char) : Option (List Char × List Char × List Char) :=
  (litCI "INSERT".data s).bind fun r0 =>
  (plusSplitsGreedy jsSpaceChar r0).findSome? fun (_, r1) =>
  (litCI "INTO".data r1).bind fun r2 =>
  (plusSplitsGreedy jsSpaceChar r2).findSome? fun (_, r3) =>
  (plusSplitsGreedy wordChar r3).findSome? fun (tbl, r4) =>
  (starSplitsGreedy jsSpaceChar r4).findSome? fun (_, r5) =>
  (litChar '(' r5).bind fun r6 =>
  (plusSplitsLazy jsDotChar r6).findSome? fun (cols, r7) =>
  (litChar ')' r7).bind fun r8 =>
  (starSplitsGreedy jsSpaceChar r8).findSome? fun (_, r9) =>
  (litCI "VALUES".data r9).bind fun r10 =>
  (starSplitsGreedy jsSpaceChar r10).findSome? fun (_, r11) =>
  (litChar '(' r11).bind fun r12 =>
  (plusSplitsLazy jsDotChar r12).findSome? fun (vals, r13) =>
  (litChar ')' r13).bind fun _ =>
  some (tbl, cols, vals)

/-- Matcher for the UPDATE pattern
UPDATE backslash-s+ word-plus backslash-s+ SET backslash-s+ lazy-dot-plus
followed by the optional WHERE group.  Because the lazy quantifier is
followed only by an optional group, it never expands: the captured SET text
is always a single character, exactly as in the source. -/
def updateMatchAt (s : List Char) : Option (List Char × List Char × Option (List Char)) :=
  (litCI "UPDATE".data s).bind fun r0 =>
  (plusSplitsGreedy jsSpaceChar r0).findSome? fun (_, r1) =>
  (plusSplitsGreedy wordChar r1).findSome? fun (tbl, r2) =>
  (plusSplitsGreedy jsSpaceChar r2).findSome? fun (_, r3) =>
  (litCI "SET".data r3).bind fun r4 =>
  (plusSplitsGreedy jsSpaceChar r4).findSome? fun (_, r5) =>
  (plusSplitsLazy jsDotChar r5).findSome? fun (setPart, r6) =>
  some (tbl, setPart, selectMatchAt.whereGroup r6)

/-- Matcher for the DELETE pattern
DELETE backslash-s+ FROM backslash-s+ word-plus with the optional WHERE
group. -/
def deleteMatchAt (s : List Char) : Option (List Char × Option (List Char)) :=
  (litCI "DELETE".data s).bind fun r0 =>
  (plusSplitsGreedy jsSpaceChar r0).findSome? fun (_, r1) =>
  (litCI "FROM".data r1).bind fun r2 =>
  (plusSplitsGreedy jsSpaceChar r2).findSome? fun (_, r3) =>
  (plusSplitsGreedy wordChar r3).findSome? fun (tbl, r4) =>
  some (tbl, selectMatchAt.whereGroup r4)

/-- Matcher for the CREATE TABLE pattern
CREATE backslash-s+ TABLE backslash-s+ word-plus backslash-s* open-paren
greedy-dot-plus close-paren: the greedy body captures up to the last
closing parenthesis that lets the pattern finish. -/
def createTableMatchAt (s : List Char) : Option (List Char × List Char) :=
  (litCI "CREATE".data s).bind fun r0 =>
  (plusSplitsGreedy jsSpaceChar r0).findSome? fun (_, r1) =>
  (litCI "TABLE".data r1).bind fun r2 =>
  (plusSplitsGreedy jsSpaceChar r2).findSome? fun (_, r3) =>
  (plusSplitsGreedy wordChar r3).findSome? fun (name, r4) =>
  (starSplitsGreedy jsSpaceChar r4).findSome? fun (_, r5) =>
  (litChar '(' r5).bind fun r6 =>
  (plusSplitsGreedy jsDotChar r6).findSome? fun (defs, r7) =>
  (litChar ')' r7).bind fun _ =>
  some (name, defs)

/-- Matcher for the CREATE DATABASE pattern with its optional
IF NOT EXISTS group: the group is attempted first and abandoned when the
following word-plus cannot match. -/
def createDatabaseMatchAt (s : List Char) : Option (Bool × List Char) :=
  (litCI "CREATE".data s).bind fun r0 =>
  (plusSplitsGreedy jsSpaceChar r0).findSome? fun (_, r1) =>
  (litCI "DATABASE".data r1).bind fun r2 =>
  (plusSplitsGreedy jsSpaceChar r2).findSome? fun (_, r3) =>
  (withGroup r3).orElse fun _ =>
  (plusSplitsGreedy wordChar r3).findSome? fun (name, _) => some (false, name)
where
  /-- The branch in which the IF NOT EXISTS group participates. -/
  withGroup (r : List Char) : Option (Bool × List Char) :=
    (litCI "IF".data r).bind fun a =>
    (plusSplitsGreedy jsSpaceChar a).findSome? fun (_, b) =>
    (litCI "NOT".data b).bind fun c =>
    (plusSplitsGreedy jsSpaceChar c).findSome? fun (_, d) =>
    (litCI "EXISTS".data d).bind fun e =>
    (plusSplitsGreedy jsSpaceChar e).findSome? fun (_, f) =>
    (plusSplitsGreedy wordChar f).findSome? fun (name, _) => some (true, name)

/-- Matcher for DROP DATABASE and DROP TABLE and USE, which all have the
shape keyword(s) then backslash-s+ then a word capture. -/
def keywordNameMatchAt (kw1 : String) (kw2 : Option String) (s : List Char) : Option (List Char) :=
  (litCI kw1.data s).bind fun r0 =>
  match kw2 with
  | none =>
    (plusSplitsGreedy jsSpaceChar r0).findSome? fun (_, r1) =>
    (plusSplitsGreedy wordChar r1).findSome? fun (name, _) => some name
  | some k2 =>
    (plusSplitsGreedy jsSpaceChar r0).findSome? fun (_, r1) =>
    (litCI k2.data r1).bind fun r2 =>
    (plusSplitsGreedy jsSpaceChar r2).findSome? fun (_, r3) =>
    (plusSplitsGreedy wordChar r3).findSome? fun (name, _) => some name

/-- Matcher for the GRANT and REVOKE patterns: keyword, privilege word,
ON, the alternation TABLE or DATABASE (tried in that order), a name word,
then TO or FROM and a user word. -/
def permissionMatchAt (kw finalKw : String) (s : List Char) :
    Option (List Char × List Char × List Char × List Char) :=
  (litCI kw.data s).bind fun r0 =>
  (plusSplitsGreedy jsSpaceChar r0).findSome? fun (_, r1) =>
  (plusSplitsGreedy wordChar r1).findSome? fun (priv, r2) =>
  (plusSplitsGreedy jsSpaceChar r2).findSome? fun (_, r3) =>
  (litCI "ON".data r3).bind fun r4 =>
  (plusSplitsGreedy jsSpaceChar r4).findSome? fun (_, r5) =>
  (scopeBranch "TABLE" finalKw priv r5).orElse fun _ =>
  scopeBranch "DATABASE" finalKw priv r5
where
  /-- One alternative of the scope alternation, continued by the rest of
  the pattern so that alternation backtracking is faithful; the captured
  scope text is the consumed input slice, preserving its original case. -/
  scopeBranch (scope finalKw : String) (priv : List Char) (r : List Char) :
      Option (List Char × List Char × List Char × List Char) :=
    (litCI scope.data r).bind fun a =>
    (plusSplitsGreedy jsSpaceChar a).findSome? fun (_, b) =>
    (plusSplitsGreedy wordChar b).findSome? fun (name, c) =>
    (plusSplitsGreedy jsSpaceChar c).findSome? fun (_, d) =>
    (litCI finalKw.data d).bind fun e =>
    (plusSplitsGreedy jsSpaceChar e).findSome? fun (_, f) =>
    (plusSplitsGreedy wordChar f).findSome? fun (user, _) =>
    some (priv, r.take scope.data.length, name, user)

/-- Matcher for the condition pattern of filterRowsByCondition:
word-plus backslash-s* op-class-plus backslash-s* greedy-dot-plus.  The
operator class contains only equals, greater and less, so in particular an
exclamation mark can never be part of the matched operator. -/
def condMatchAt (s : List Char) : Option (List Char × List Char × List Char) :=
  (plusSplitsGreedy wordChar s).findSome? fun (col, r1) =>
  (starSplitsGreedy jsSpaceChar r1).findSome? fun (_, r2) =>
  (plusSplitsGreedy condOpChar r2).findSome? fun (op, r3) =>
  (starSplitsGreedy jsSpaceChar r3).findSome? fun (_, r4) =>
  (plusSplitsGreedy jsDotChar r4).findSome? fun (v, _) =>
  some (col, op, v)

/-! ## JavaScript numbers and values

JavaScript numbers are modelled by exact fractions (a signed numerator
over a positive denominator, not necessarily reduced); value equality and
order are by cross-multiplication, so every operation below is computable
by the kernel.  A missing object property (undefined) is modelled by none
at use sites. -/

/-- An exact fraction standing in for a JavaScript number.  Every
constructor site keeps the denominator positive. -/
structure JsNumber where
  num : Int
  den : Nat
deriving Repr, DecidableEq

/-- Numeric equality of fractions by cross-multiplication. -/
def JsNumber.eqb (a b : JsNumber) : Bool :=
  decide (a.num * (b.den : Int) = b.num * (a.den : Int))

/-- Numeric strict order of fractions by cross-multiplication (both
denominators are positive). -/
def JsNumber.ltb (a b : JsNumber) : Bool :=
  decide (a.num * (b.den : Int) < b.num * (a.den : Int))

/-- An integer as a JavaScript number. -/
def jsInt (n : Int) : JsNumber := { num := n, den := 1 }

/-- Digit run to natural number. -/
def digitsVal (ds : List Char) : Nat :=
  ds.foldl (fun a c => a * 10 + (c.toNat - 48)) 0

/-- Decimal digit test. -/
def digitChar (c : Char) : Bool := decide (48 ≤ c.toNat ∧ c.toNat ≤ 57)

/-- The Number() conversion on strings, returning none for NaN.  The
decimal numeric grammar (optional sign, integer part, fraction, exponent)
is modelled; the empty or all-whitespace string converts to zero as in
JavaScript.  Hexadecimal, octal, binary and Infinity forms are treated as
NaN here; no statement exercised below uses them. -/
def jsStringToNumber (s : String) : Option JsNumber :=
  let t := trimList s.data
  if t = [] then some (jsInt 0)
  else
    let (neg, t1) : Bool × List Char :=
      match t with
      | '+' :: r => (false, r)
      | '-' :: r => (true, r)
      | r => (false, r)
    let ip := t1.takeWhile digitChar
    let r1 := t1.dropWhile digitChar
    let (fp, r2) : List Char × List Char :=
      match r1 with
      | '.' :: r => (r.takeWhile digitChar, r.dropWhile digitChar)
      | _ => ([], r1)
    if ip = [] ∧ fp = [] then none
    else
      let baseNum : Int := (digitsVal ip * 10 ^ fp.length + digitsVal fp : Nat)
      let signedNum : Int := if neg then -baseNum else baseNum
      let baseDen : Nat := 10 ^ fp.length
      match r2 with
      | [] => some { num := signedNum, den := baseDen }
      | 'e' :: rE | 'E' :: rE =>
        let (expNeg, rE1) : Bool × List Char :=
          match rE with
          | '+' :: r => (false, r)
          | '-' :: r => (true, r)
          | r => (false, r)
        let ed := rE1.takeWhile digitChar
        let rE2 := rE1.dropWhile digitChar
        if ed = [] ∨ rE2 ≠ [] then none
        else
          let p : Nat := 10 ^ digitsVal ed
          some (if expNeg then { num := signedNum, den := baseDen * p }
                else { num := signedNum * (p : Int), den := baseDen })
      | _ => none

/-- The parseInt conversion with radix ten, returning none for NaN:
leading whitespace skipped, optional sign, then the longest leading digit
run is taken and any remainder ignored. -/
def jsParseInt (s : String) : Option Int :=
  let t := (s.data.dropWhile jsSpaceChar)
  let (neg, t1) : Bool × List Char :=
    match t with
    | '+' :: r => (false, r)
    | '-' :: r => (true, r)
    | r => (false, r)
  let ds := t1.takeWhile digitChar
  if ds = [] then none
  else some (if neg then -(digitsVal ds : Int) else (digitsVal ds : Int))

/-- A stored cell or literal value: JavaScript string, number or boolean. -/
inductive Value where
  | str (s : String)
  | num (q : JsNumber)
  | bool (b : Bool)
deriving Repr, DecidableEq

/-- A present-or-undefined JavaScript value, as read from an object
property that may be absent. -/
abbrev JsVal := Option Value

/-- The ToNumber conversion on a defined value (none is NaN). -/
def toNumV : Value → Option JsNumber
  | .num q => some q
  | .bool b => some (jsInt (if b then 1 else 0))
  | .str s => jsStringToNumber s

/-- The ToNumber conversion on a possibly-undefined value: undefined
converts to NaN. -/
def toNumJ : JsVal → Option JsNumber
  | none => none
  | some v => toNumV v

/-- UTF-16 code units of a character, for the JavaScript string ordering. -/
def utf16Units (c : Char) : List Nat :=
  if c.toNat < 65536 then [c.toNat]
  else
    let v := c.toNat - 65536
    [0xd800 + v / 1024, 0xdc00 + v % 1024]

/-- UTF-16 code units of a string. -/
def unitsOf (s : String) : List Nat := (s.data.map utf16Units).flatten

/-- Strict lexicographic order on lists of numbers. -/
def natListLt : List Nat → List Nat → Bool
  | _, [] => false
  | [], _ :: _ => true
  | a :: as, b :: bs => if a < b then true else if b < a then false else natListLt as bs

/-- The JavaScript string less-than (code-unit lexicographic order). -/
def jsStrLt (x y : String) : Bool := natListLt (unitsOf x) (unitsOf y)

/-- Loose equality of two defined values: same-type comparison for two
strings, two numbers or two booleans, and numeric comparison (with NaN
never equal) for every mixed pair, following the abstract equality
algorithm for the value kinds that can occur here. -/
def looseEqVV : Value → Value → Bool
  | .str x, .str y => x = y
  | .num x, .num y => x.eqb y
  | .bool x, .bool y => x = y
  | x, y =>
    match toNumV x, toNumV y with
    | some p, some q => p.eqb q
    | _, _ => false

/-- Loose equality of a possibly-undefined cell against a literal value:
undefined is loosely equal only to null or undefined, never to a parsed
literal. -/
def jsLooseEq (a : JsVal) (b : Value) : Bool :=
  match a with
  | none => false
  | some va => looseEqVV va b

/-- The abstract relational comparison, three-valued: none is the
undefined result produced by NaN.  Two strings compare by code units;
every other pair compares by ToNumber. -/
def jsLess3 (a b : JsVal) : Option Bool :=
  match a, b with
  | some (.str x), some (.str y) => some (jsStrLt x y)
  | _, _ =>
    match toNumJ a, toNumJ b with
    | some p, some q => some (p.ltb q)
    | _, _ => none

/-- JavaScript strict-less on possibly-undefined values (undefined result
becomes false). -/
def jsLt (a b : JsVal) : Bool := (jsLess3 a b).getD false

/-- JavaScript greater-than. -/
def jsGt (a b : JsVal) : Bool := (jsLess3 b a).getD false

/-- JavaScript greater-or-equal: the negation of less-than unless that is
undefined. -/
def jsGe (a b : JsVal) : Bool :=
  match jsLess3 a b with
  | none => false
  | some r => !r

/-- JavaScript less-or-equal. -/
def jsLe (a b : JsVal) : Bool :=
  match jsLess3 b a with
  | none => false
  | some r => !r

/-- The literal conversion shared by the INSERT value list, the UPDATE SET
clause and the WHERE condition (the three sites carry the same chain):
quote-unwrapping for single- or double-quoted text, the words true and
false case-insensitively to booleans, numeric-looking text to a number,
anything else kept as text.  The argument is already trimmed at every call
site, as in the source. -/
def parseLiteral (t : String) : Value :=
  if (jsStartsWith t "\x27" && jsEndsWith t "\x27") ||
     (jsStartsWith t "\x22" && jsEndsWith t "\x22") then
    .str (jsSubstring t 1 ((t.data.length : Int) - 1))
  else if jsToLower t = "true" then .bool true
  else if jsToLower t = "false" then .bool false
  else
    match jsStringToNumber t with
    | some q => .num q
    | none => .str t

/-! ## Data model -/

/-- The normalized base type a declared SQL type maps to. -/
inductive BaseType where
  | number
  | text
  | boolean
  | date
  | datetime
deriving Repr, DecidableEq

/-- A parsed SQL type, the result of parseSqlType. -/
structure ParsedType where
  original : String
  baseType : BaseType
  length : Option Int
  precision : Option Int
  scale : Option Int
deriving Repr, DecidableEq

/-- A table column. -/
structure Column where
  id : String
  name : String
  type : BaseType
  originalType : String
  length : Option Int
  precision : Option Int
  scale : Option Int
  isPrimaryKey : Bool
deriving Repr, DecidableEq

/-- A row: its id plus an association list from column id to stored value.
A column id absent from the list reads as undefined. -/
structure Row where
  id : String
  cells : List (String × Value)
deriving Repr, DecidableEq

/-- Read a cell (an absent key is the undefined read). -/
def Row.getCell (r : Row) (colId : String) : JsVal :=
  (r.cells.find? (fun kv => kv.1 = colId)).map (fun kv => kv.2)

/-- Property assignment on the cell map: replace the first binding of the
key or append a new one. -/
def upsertCell (colId : String) (v : Value) : List (String × Value) → List (String × Value)
  | [] => [(colId, v)]
  | kv :: t => if kv.1 = colId then (kv.1, v) :: t else kv :: upsertCell colId v t

/-- Assign one cell of a row. -/
def Row.setCell (r : Row) (colId : String) (v : Value) : Row :=
  { r with cells := upsertCell colId v r.cells }

/-- A table. -/
structure Table where
  id : String
  name : String
  columns : List Column
  rows : List Row
  createdAt : String
deriving Repr, DecidableEq

/-- An advisory permission log entry, appended by GRANT and REVOKE and
never consulted by any executor. -/
structure PermissionEvent where
  action : String
  privilege : String
  scopeType : String
  name : String
  user : String
  /-- Timestamp field, named at in the source (a keyword here). -/
  atTime : String
deriving Repr, DecidableEq

/-- A database.  The meta object is absent on databases created through
the UI path and carries the permission log otherwise. -/
structure Database where
  id : String
  name : String
  tables : List Table
  createdAt : String
  meta : Option (List PermissionEvent)
deriving Repr, DecidableEq

/-- The persisted interpreter state: the stored database collection, the
snapshot stack (pushed at the end, popped from the end) and the selected
database id, corresponding to the three localStorage keys. -/
structure DbState where
  databases : List Database
  snapshots : List (List Database)
  selected : Option String
deriving Repr, DecidableEq

/-- pushSnapshot: push a copy of the stored databases onto the stack. -/
def pushSnapshot (st : DbState) : DbState :=
  { st with snapshots := st.snapshots ++ [st.databases] }

/-- getSelectedDatabase: resolve the selected id in the stored set. -/
def getSelectedDatabase (st : DbState) : Option Database :=
  st.selected.bind fun id => st.databases.find? (fun d => d.id = id)

/-! ## Errors and results

Each error constructor corresponds to one thrown Error of the source; the
name it carries is the identifier interpolated into the thrown message.
jsTypeError models a JavaScript runtime TypeError (reading a property of
undefined), which the caller surfaces like any other error. -/

/-- The error taxonomy of the interpreter. -/
inductive QueryError where
  | noDatabaseSelected
  | emptyQuery
  | unsupportedQueryType
  | invalidSelectFormat
  | invalidInsertFormat
  | invalidUpdateFormat
  | invalidDeleteFormat
  | invalidCreateTableFormat
  | invalidCreateDatabaseFormat
  | invalidDropDatabaseFormat
  | invalidDropTableFormat
  | invalidUseFormat
  | invalidGrantFormat
  | invalidRevokeFormat
  | tableNotFound (table : String)
  | columnNotFoundInTable (column table : String)
  | columnNotFound (column : String)
  | tableAlreadyExists (table : String)
  | databaseAlreadyExists (db : String)
  | databaseNotFound (db : String)
  | invalidCondition (condition : String)
  | unsupportedOperator (op : String)
  | invalidColumnDefinition (def_ : String)
  | missingTypeForColumn (column : String)
  | invalidTypeForColumn (column typeText : String)
  | jsTypeError
deriving Repr, DecidableEq

/-- Success messages; each constructor stands for the literal message
string built by the source, with interpolated counts and names carried as
arguments. -/
inductive ExecMessage where
  | rowInserted
  | rowsUpdated (n : Nat)
  | rowsDeleted (n : Nat)
  | tableCreated (name : String)
  | databaseCreated (name : String)
  | databaseAlreadyExistsBenign (name : String)
  | databaseDropped (name : String)
  | usingDatabase (name : String)
  | tableDropped (name : String)
  | granted (privilege scope name user : String)
  | revoked (privilege scope name user : String)
  | transactionStarted
  | transactionCommitted
  | nothingToRollback
  | rolledBack
deriving Repr, DecidableEq

/-- A query result: a SELECT result (projected column metadata, the
filtered rows, and the row count interpolated into the rows-returned
message) or a plain success message. -/
inductive QueryResult where
  | table (columns : List Column) (rows : List Row) (returnedCount : Nat)
  | message (m : ExecMessage)
deriving Repr, DecidableEq

/-- Outcome of running one statement. -/
abbrev Outcome := Except QueryError QueryResult

/-! ## Type parsing (parseSqlType) -/

/-- The anchored token pattern of parseSqlType:
caret word-plus, optionally backslash-s* open-paren non-paren-plus
close-paren.  Returns the token and the optional argument text. -/
def sqlTypeTokenMatch (s : List Char) : Option (List Char × Option (List Char)) :=
  let tok := s.takeWhile wordChar
  if tok = [] then none
  else
    let r1 := (s.dropWhile wordChar).dropWhile jsSpaceChar
    let args : Option (List Char) :=
      match r1 with
      | '(' :: r2 =>
        let inner := r2.takeWhile (fun c => !(c = ')'))
        if inner = [] then none
        else
          match r2.dropWhile (fun c => !(c = ')')) with
          | ')' :: _ => some inner
          | _ => none
      | _ => none
    some (tok, args)

/-- The keyword-to-baseType chain of parseSqlType, verbatim from the
source (the two number lists are separate tests there). -/
def baseTypeForToken (baseToken : String) : BaseType :=
  if ["INT", "INTEGER", "BIGINT", "SMALLINT", "TINYINT"].contains baseToken then .number
  else if ["DECIMAL", "NUMERIC", "FLOAT", "DOUBLE", "REAL"].contains baseToken then .number
  else if ["CHAR", "NCHAR", "VARCHAR", "NVARCHAR", "TEXT", "STRING"].contains baseToken then .text
  else if ["BOOL", "BOOLEAN"].contains baseToken then .boolean
  else if baseToken = "DATE" then .date
  else if ["DATETIME", "TIMESTAMP"].contains baseToken then .datetime
  else .text

/-- The length, precision and scale read from the parenthesized argument
list: one argument becomes length, two become precision and scale, any
other arity leaves all three null. -/
def argsTriple (args : List String) : Option Int × Option Int × Option Int :=
  match args with
  | [a] => (jsParseInt a, none, none)
  | [a, b] => (none, jsParseInt a, jsParseInt b)
  | _ => (none, none, none)

/-- parseSqlType: trim, uppercase, match the anchored token pattern (null
when the input does not begin with a word character), read one argument as
length or two as precision and scale, and map the keyword to a base
type. -/
def parseSqlType (typeStr : String) : Option ParsedType :=
  let raw := jsTrim typeStr
  let upper := jsToUpper raw
  match sqlTypeTokenMatch upper.data with
  | none => none
  | some (tok, argsOpt) =>
    let args : List String :=
      match argsOpt with
      | none => []
      | some inner => (jsSplitOnChar ',' (String.mk inner)).map jsTrim
    let lps := argsTriple args
    some { original := raw, baseType := baseTypeForToken (String.mk tok),
           length := lps.1, precision := lps.2.1, scale := lps.2.2 }

/-! ## CREATE TABLE column definitions -/

/-- The parenthesis-depth-aware splitting loop of executeCreateTableQuery:
split on commas at depth zero, trimming each chunk and dropping empty
chunks. -/
def splitTopAux : List Char → List Char → Nat → List String
  | [], buf, _ =>
    let piece := jsTrim (String.mk buf.reverse)
    if piece = "" then [] else [piece]
  | c :: cs, buf, depth =>
    let d1 := if c = '(' then depth + 1 else depth
    let d2 := if c = ')' then d1 - 1 else d1
    if c = ',' ∧ d2 = 0 then
      let piece := jsTrim (String.mk buf.reverse)
      (if piece = "" then id else (piece :: ·)) (splitTopAux cs [] d2)
    else
      splitTopAux cs (c :: buf) d2

/-- Split a column-definition list on top-level commas only. -/
def splitTopLevelCommas (defsRaw : String) : List String :=
  splitTopAux defsRaw.data [] 0

/-- Parse the column definitions of a CREATE TABLE statement, mirroring
the loop of executeCreateTableQuery: each definition yields its leading
word as the column name, the remainder (first occurrence of the name
removed, then trimmed) as the type text, a parsed SQL type, and a
PRIMARY KEY flag from an uppercase substring test.  Column ids are the
statement clock value with the definition index appended. -/
def parseColumnDefs (now : Nat) : List String → Nat → Except QueryError (List Column)
  | [], _ => .ok []
  | colDef :: rest, i =>
    let nameChars := colDef.data.takeWhile wordChar
    if nameChars = [] then .error (.invalidColumnDefinition colDef)
    else
      let columnName := String.mk nameChars
      let typeMatch := jsTrim (jsRemoveFirst colDef columnName)
      if typeMatch = "" then .error (.missingTypeForColumn columnName)
      else
        match parseSqlType typeMatch with
        | none => .error (.invalidTypeForColumn columnName typeMatch)
        | some parsed =>
          let isPrimaryKey := jsIncludes (jsToUpper colDef) "PRIMARY KEY"
          let col : Column :=
            { id := toString now ++ toString i, name := columnName,
              type := parsed.baseType, originalType := parsed.original,
              length := parsed.length, precision := parsed.precision,
              scale := parsed.scale, isPrimaryKey := isPrimaryKey }
          (parseColumnDefs now rest (i + 1)).map (col :: ·)

/-! ## Predicate evaluator (filterRowsByCondition) -/

/-- Evaluate one comparison operator of the switch in
filterRowsByCondition; none models the unsupported-operator throw raised
from inside the filter callback. -/
def condOpTest (op : String) (cell : JsVal) (v : Value) : Option Bool :=
  if op = "=" then some (jsLooseEq cell v)
  else if op = "!=" ∨ op = "<>" then some (!jsLooseEq cell v)
  else if op = ">" then some (jsGt cell v)
  else if op = "<" then some (jsLt cell v)
  else if op = ">=" then some (jsGe cell v)
  else if op = "<=" then some (jsLe cell v)
  else none

/-- The filter over the rows: the callback throws on an unsupported
operator, so a nonempty row list surfaces that error while an empty list
never invokes the callback. -/
def condFilterRows (op : String) (colId : String) (v : Value) :
    List Row → Except QueryError (List Row)
  | [] => .ok []
  | r :: rs =>
    match condOpTest op (r.getCell colId) v with
    | none => .error (.unsupportedOperator op)
    | some b => (condFilterRows op colId v rs).map (fun l => if b then r :: l else l)

/-- filterRowsByCondition: match the condition pattern (leftmost search),
resolve the column case-insensitively, convert the literal, and filter. -/
def filterRowsByCondition (table : Table) (rows : List Row) (condition : String) :
    Except QueryError (List Row) :=
  match scanAux condMatchAt condition.data with
  | none => .error (.invalidCondition condition)
  | some (colChars, opChars, valChars) =>
    let columnName := jsTrim (String.mk colChars)
    let operator := jsTrim (String.mk opChars)
    let rawValue := jsTrim (String.mk valChars)
    match table.columns.find? (fun c => jsToLower c.name = jsToLower columnName) with
    | none => .error (.columnNotFound columnName)
    | some column =>
      let value := parseLiteral rawValue
      condFilterRows operator column.id value rows

/-! ## List update helpers mirroring findIndex followed by indexing -/

/-- findIndex then mutate at that index; none models the JavaScript crash
that follows indexing with minus one at the sites where the source indexes
unconditionally. -/
def updateFirst (p : α → Bool) (f : α → α) : List α → Option (List α)
  | [] => none
  | a :: t => if p a then some (f a :: t) else (updateFirst p f t).map (a :: ·)

/-- findIndex then mutate at that index, skipping when absent (the sites
that guard against minus one). -/
def updateFirstOrSkip (p : α → Bool) (f : α → α) : List α → List α
  | [] => []
  | a :: t => if p a then f a :: t else a :: updateFirstOrSkip p f t

/-- findIndex then a fallible mutation at that index. -/
def updateFirstM (p : α → Bool) (f : α → Option α) : List α → Option (List α)
  | [] => none
  | a :: t => if p a then (f a).map (· :: t) else (updateFirstM p f t).map (a :: ·)

/-- The doubly-indexed mutation databases[dbIndex].tables[tableIndex]
shared by the row-level executors: both indexings are unguarded in the
source, so a missing database or table id models the TypeError crash. -/
def updateStoredTable (dbId tableId : String) (f : Table → Table)
    (databases : List Database) : Option (List Database) :=
  updateFirstM (fun d => d.id = dbId)
    (fun d => (updateFirst (fun t => t.id = tableId) f d.tables).map
      (fun ts => { d with tables := ts }))
    databases

/-! ## Statement executors -/

/-- executeSelectQuery after its regular expression has been matched:
resolve the table case-insensitively, expand a leading star to every
column name, validate each requested name case-insensitively, filter by
the optional condition, and project.  The projection compares the stored
array against the literal star with strict equality, which is always
false for an array, so the filter branch is always taken, exactly as in
the source. -/
def selectCore (columns : List String) (tableName : String)
    (whereClause : Option String) (database : Database) : Outcome :=
  match database.tables.find? (fun t => jsToLower t.name = jsToLower tableName) with
  | none => .error (.tableNotFound tableName)
  | some table =>
    let selectedColumns :=
      if columns.head? = some "*" then table.columns.map (fun c => c.name) else columns
    let tableColumnNames := table.columns.map (fun c => jsToLower c.name)
    match selectedColumns.find?
        (fun col => !(col = "*") && !(tableColumnNames.contains (jsToLower col))) with
    | some badCol => .error (.columnNotFoundInTable badCol tableName)
    | none =>
      let filteredE : Except QueryError (List Row) :=
        match whereClause with
        | none => .ok table.rows
        | some w => filterRowsByCondition table table.rows w
      filteredE.map fun filteredRows =>
        .table (table.columns.filter (fun col => selectedColumns.contains col.name))
          filteredRows filteredRows.length

/-- executeSelectQuery: match the SELECT pattern, split the column list on
commas with trimming, and run the core.  Read-only: the signature has no
state and the dispatcher returns the incoming state unchanged. -/
def executeSelectQuery (query : String) (database : Database) : Outcome :=
  match scanAux selectMatchAt query.data with
  | none => .error .invalidSelectFormat
  | some (colsChars, tblChars, whereChars) =>
    let columns := (jsSplitOnChar ',' (String.mk colsChars)).map jsTrim
    let tableName := jsTrim (String.mk tblChars)
    let whereClause := whereChars.map (fun w => jsTrim (String.mk w))
    selectCore columns tableName whereClause database

/-- The pure part of executeInsertQuery, from pattern match to the new
database collection.  A positional value missing for a named column is
assigned as undefined in the source and dropped again by the JSON
persistence, so the cell is left absent here. -/
def insertResult (query : String) (database : Database) (now : Nat)
    (databases : List Database) : Except QueryError (List Database) :=
  match scanAux insertMatchAt query.data with
  | none => .error .invalidInsertFormat
  | some (tblChars, colsChars, valsChars) =>
    let tableName := jsTrim (String.mk tblChars)
    let columns := (jsSplitOnChar ',' (String.mk colsChars)).map jsTrim
    let values := (jsSplitOnChar ',' (String.mk valsChars)).map
      (fun v => parseLiteral (jsTrim v))
    match database.tables.find? (fun t => jsToLower t.name = jsToLower tableName) with
    | none => .error (.tableNotFound tableName)
    | some table =>
      let tableColumns := table.columns
      match columns.find?
          (fun col => !(tableColumns.any (fun c => jsToLower c.name = jsToLower col))) with
      | some badCol => .error (.columnNotFoundInTable badCol tableName)
      | none =>
        let newRow := (List.range columns.length).foldl
          (fun (row : Row) i =>
            match columns.get? i with
            | none => row
            | some columnName =>
              match tableColumns.find?
                  (fun c => jsToLower c.name = jsToLower columnName) with
              | none => row
              | some column =>
                match values.get? i with
                | some v => row.setCell column.id v
                | none => row)
          { id := toString now, cells := [] }
        match updateStoredTable database.id table.id
            (fun t => { t with rows := t.rows ++ [newRow] }) databases with
        | none => .error .jsTypeError
        | some dbs => .ok dbs

/-- executeInsertQuery: push a snapshot before anything else (also before
the pattern match, as in the source), then apply the pure result. -/
def executeInsertQuery (query : String) (database : Database) (now : Nat)
    (st : DbState) : Outcome × DbState :=
  match insertResult query database now (pushSnapshot st).databases with
  | .error e => (.error e, pushSnapshot st)
  | .ok dbs => (.ok (.message .rowInserted), { pushSnapshot st with databases := dbs })

/-- Parse one SET assignment of an UPDATE: split on the equals sign and
trim.  When the expression has no equals sign the value slot is undefined
and the source crashes reading startsWith on it, modelled by the
TypeError value. -/
def parseSetExpr (expr : String) : Except QueryError (String × Value) :=
  let parts := (jsSplitOnChar '=' expr).map jsTrim
  match parts with
  | columnName :: valueStr :: _ => .ok (columnName, parseLiteral valueStr)
  | _ => .error .jsTypeError

/-- Parse every SET assignment, stopping at the first failure as the
mapping callback would. -/
def parseSetExprs : List String → Except QueryError (List (String × Value))
  | [] => .ok []
  | e :: es => (parseSetExpr e).bind fun p => (parseSetExprs es).map (p :: ·)

/-- Apply the assignment loops of executeUpdateQuery: for each affected
row and each assignment, resolve the column (present after validation; the
defensive branch is unreachable) and assign the cell on the stored row
with the matching id. -/
def applyUpdates (tableColumns : List Column) (setExprs : List (String × Value))
    (targets : List Row) (rows : List Row) : List Row :=
  targets.foldl
    (fun acc trow =>
      setExprs.foldl
        (fun acc2 e =>
          match tableColumns.find? (fun c => jsToLower c.name = jsToLower e.1) with
          | none => acc2
          | some column =>
            updateFirstOrSkip (fun r => r.id = trow.id)
              (fun r => r.setCell column.id e.2) acc2)
        acc)
    rows

/-- The pure part of executeUpdateQuery.  The pattern's lazy quantifier
leaves a single-character SET clause, so well-formed UPDATE statements
reach parseSetExprs with a truncated clause. -/
def updateResult (query : String) (database : Database)
    (databases : List Database) : Except QueryError (List Database × Nat) :=
  match scanAux updateMatchAt query.data with
  | none => .error .invalidUpdateFormat
  | some (tblChars, setChars, whereChars) =>
    let tableName := jsTrim (String.mk tblChars)
    let setClause := jsTrim (String.mk setChars)
    let whereClause := whereChars.map (fun w => jsTrim (String.mk w))
    match database.tables.find? (fun t => jsToLower t.name = jsToLower tableName) with
    | none => .error (.tableNotFound tableName)
    | some table =>
      (parseSetExprs (jsSplitOnChar ',' setClause)).bind fun setExprs =>
      match setExprs.find?
          (fun e => !(table.columns.any (fun c => jsToLower c.name = jsToLower e.1))) with
      | some bad => .error (.columnNotFoundInTable bad.1 tableName)
      | none =>
        let rowsE : Except QueryError (List Row) :=
          match whereClause with
          | none => .ok table.rows
          | some w => filterRowsByCondition table table.rows w
        rowsE.bind fun rowsToUpdate =>
        match updateStoredTable database.id table.id
            (fun t => { t with rows := applyUpdates table.columns setExprs rowsToUpdate t.rows })
            databases with
        | none => .error .jsTypeError
        | some dbs => .ok (dbs, rowsToUpdate.length)

/-- executeUpdateQuery: snapshot first, then the pure result. -/
def executeUpdateQuery (query : String) (database : Database) (st : DbState) :
    Outcome × DbState :=
  match updateResult query database (pushSnapshot st).databases with
  | .error e => (.error e, pushSnapshot st)
  | .ok (dbs, n) =>
    (.ok (.message (.rowsUpdated n)), { pushSnapshot st with databases := dbs })

/-- The pure part of executeDeleteQuery. -/
def deleteResult (query : String) (database : Database)
    (databases : List Database) : Except QueryError (List Database × Nat) :=
  match scanAux deleteMatchAt query.data with
  | none => .error .invalidDeleteFormat
  | some (tblChars, whereChars) =>
    let tableName := jsTrim (String.mk tblChars)
    let whereClause := whereChars.map (fun w => jsTrim (String.mk w))
    match database.tables.find? (fun t => jsToLower t.name = jsToLower tableName) with
    | none => .error (.tableNotFound tableName)
    | some table =>
      let rowsE : Except QueryError (List Row) :=
        match whereClause with
        | none => .ok table.rows
        | some w => filterRowsByCondition table table.rows w
      rowsE.bind fun rowsToDelete =>
      let rowIds := rowsToDelete.map (fun r => r.id)
      match updateStoredTable database.id table.id
          (fun t => { t with rows := t.rows.filter (fun r => !(rowIds.contains r.id)) })
          databases with
      | none => .error .jsTypeError
      | some dbs => .ok (dbs, rowsToDelete.length)

/-- executeDeleteQuery: snapshot first, then the pure result. -/
def executeDeleteQuery (query : String) (database : Database) (st : DbState) :
    Outcome × DbState :=
  match deleteResult query database (pushSnapshot st).databases with
  | .error e => (.error e, pushSnapshot st)
  | .ok (dbs, n) =>
    (.ok (.message (.rowsDeleted n)), { pushSnapshot st with databases := dbs })

/-- executeCreateTableQuery after its pattern has been matched: split the
definitions on top-level commas, reject an existing table name
case-insensitively, parse the column definitions, and append the new
table to the stored database with the matching id. -/
def createTableCore (tableName defsRaw : String) (database : Database) (now : Nat)
    (st : DbState) : Outcome × DbState :=
  let columnDefs := splitTopLevelCommas defsRaw
  if database.tables.any (fun t => jsToLower t.name = jsToLower tableName) then
    (.error (.tableAlreadyExists tableName), st)
  else
    match parseColumnDefs now columnDefs 0 with
    | .error e => (.error e, st)
    | .ok columns =>
      let newTable : Table :=
        { id := toString now, name := tableName, columns := columns, rows := [],
          createdAt := toString now }
      match updateFirst (fun d => d.id = database.id)
          (fun d => { d with tables := d.tables ++ [newTable] }) st.databases with
      | none => (.error .jsTypeError, st)
      | some dbs =>
        (.ok (.message (.tableCreated tableName)), { st with databases := dbs })

/-- executeCreateTableQuery: the snapshot push precedes even the pattern
match in the source. -/
def executeCreateTableQuery (query : String) (database : Database) (now : Nat)
    (st : DbState) : Outcome × DbState :=
  let st1 := pushSnapshot st
  match scanAux createTableMatchAt query.data with
  | none => (.error .invalidCreateTableFormat, st1)
  | some (nameChars, defsChars) =>
    createTableCore (jsTrim (String.mk nameChars)) (jsTrim (String.mk defsChars))
      database now st1

/-- executeCreateDatabaseQuery after its pattern has been matched: a
case-insensitive name collision yields the benign message under
IF NOT EXISTS and an error otherwise, both before any snapshot or
mutation; on success a snapshot is pushed, the new database is appended,
and it becomes the selection. -/
def createDatabaseCore (ifNotExists : Bool) (dbName : String) (now : Nat)
    (st : DbState) : Outcome × DbState :=
  if st.databases.any (fun d => jsToLower d.name = jsToLower dbName) then
    if ifNotExists then (.ok (.message (.databaseAlreadyExistsBenign dbName)), st)
    else (.error (.databaseAlreadyExists dbName), st)
  else
    let st1 := pushSnapshot st
    let newDb : Database :=
      { id := toString now, name := dbName, tables := [], createdAt := toString now,
        meta := some [] }
    (.ok (.message (.databaseCreated dbName)),
      { st1 with databases := st1.databases ++ [newDb], selected := some newDb.id })

/-- executeCreateDatabaseQuery. -/
def executeCreateDatabaseQuery (query : String) (now : Nat) (st : DbState) :
    Outcome × DbState :=
  match scanAux createDatabaseMatchAt query.data with
  | none => (.error .invalidCreateDatabaseFormat, st)
  | some (ifNE, nameChars) => createDatabaseCore ifNE (String.mk nameChars) now st

/-- executeDropDatabaseQuery. -/
def executeDropDatabaseQuery (query : String) (st : DbState) : Outcome × DbState :=
  match scanAux (keywordNameMatchAt "DROP" (some "DATABASE")) query.data with
  | none => (.error .invalidDropDatabaseFormat, st)
  | some nameChars =>
    let dbName := String.mk nameChars
    match st.databases.find? (fun d => jsToLower d.name = jsToLower dbName) with
    | none => (.error (.databaseNotFound dbName), st)
    | some db =>
      let st1 := pushSnapshot st
      let filtered := st1.databases.filter (fun d => !(d.id = db.id))
      let st2 := { st1 with databases := filtered }
      if st2.selected = some db.id then
        (.ok (.message (.databaseDropped dbName)), { st2 with selected := none })
      else (.ok (.message (.databaseDropped dbName)), st2)

/-- executeUseDatabaseQuery: no snapshot, selection only. -/
def executeUseDatabaseQuery (query : String) (st : DbState) : Outcome × DbState :=
  match scanAux (keywordNameMatchAt "USE" none) query.data with
  | none => (.error .invalidUseFormat, st)
  | some nameChars =>
    let dbName := String.mk nameChars
    match st.databases.find? (fun d => jsToLower d.name = jsToLower dbName) with
    | none => (.error (.databaseNotFound dbName), st)
    | some db =>
      (.ok (.message (.usingDatabase dbName)), { st with selected := some db.id })

/-- executeDropTableQuery. -/
def executeDropTableQuery (query : String) (database : Database) (st : DbState) :
    Outcome × DbState :=
  match scanAux (keywordNameMatchAt "DROP" (some "TABLE")) query.data with
  | none => (.error .invalidDropTableFormat, st)
  | some nameChars =>
    let tableName := String.mk nameChars
    match database.tables.find? (fun t => jsToLower t.name = jsToLower tableName) with
    | none => (.error (.tableNotFound tableName), st)
    | some table =>
      let st1 := pushSnapshot st
      match updateFirst (fun d => d.id = database.id)
          (fun d => { d with tables := d.tables.filter (fun t => !(t.id = table.id)) })
          st1.databases with
      | none => (.error .jsTypeError, st1)
      | some dbs =>
        (.ok (.message (.tableDropped tableName)), { st1 with databases := dbs })

/-- Append a permission event to the metadata log of the stored database
(shared shape of executeGrantQuery and executeRevokeQuery). -/
def appendPermission (database : Database) (ev : PermissionEvent) (st : DbState) :
    Option DbState :=
  (updateFirst (fun d => d.id = database.id)
    (fun d =>
      let perms := match d.meta with | none => [] | some ps => ps
      { d with meta := some (perms ++ [ev]) })
    st.databases).map fun dbs => { st with databases := dbs }

/-- executeGrantQuery: advisory metadata only. -/
def executeGrantQuery (query : String) (database : Database) (now : Nat)
    (st : DbState) : Outcome × DbState :=
  match scanAux (permissionMatchAt "GRANT" "TO") query.data with
  | none => (.error .invalidGrantFormat, st)
  | some (privChars, scopeChars, nameChars, userChars) =>
    let st1 := pushSnapshot st
    let ev : PermissionEvent :=
      { action := "GRANT", privilege := String.mk privChars,
        scopeType := jsToUpper (String.mk scopeChars), name := String.mk nameChars,
        user := String.mk userChars, atTime := toString now }
    match appendPermission database ev st1 with
    | none => (.error .jsTypeError, st1)
    | some st2 =>
      (.ok (.message (.granted (jsToUpper (String.mk privChars))
        (jsToUpper (String.mk scopeChars)) (String.mk nameChars)
        (String.mk userChars))), st2)

/-- executeRevokeQuery: advisory metadata only. -/
def executeRevokeQuery (query : String) (database : Database) (now : Nat)
    (st : DbState) : Outcome × DbState :=
  match scanAux (permissionMatchAt "REVOKE" "FROM") query.data with
  | none => (.error .invalidRevokeFormat, st)
  | some (privChars, scopeChars, nameChars, userChars) =>
    let st1 := pushSnapshot st
    let ev : PermissionEvent :=
      { action := "REVOKE", privilege := String.mk privChars,
        scopeType := jsToUpper (String.mk scopeChars), name := String.mk nameChars,
        user := String.mk userChars, atTime := toString now }
    match appendPermission database ev st1 with
    | none => (.error .jsTypeError, st1)
    | some st2 =>
      (.ok (.message (.revoked (jsToUpper (String.mk privChars))
        (jsToUpper (String.mk scopeChars)) (String.mk nameChars)
        (String.mk userChars))), st2)

/-- executeBeginQuery: push one snapshot. -/
def executeBeginQuery (st : DbState) : Outcome × DbState :=
  (.ok (.message .transactionStarted), pushSnapshot st)

/-- executeCommitQuery: clear the whole snapshot stack. -/
def executeCommitQuery (st : DbState) : Outcome × DbState :=
  (.ok (.message .transactionCommitted), { st with snapshots := [] })

/-- executeRollbackQuery: pop the most recent snapshot (popping the empty
stack rewrites it unchanged and yields the benign message), restore the
stored databases to it, and clear the selection when the selected id no
longer exists in the restored set. -/
def executeRollbackQuery (st : DbState) : Outcome × DbState :=
  match st.snapshots.getLast? with
  | none => (.ok (.message .nothingToRollback), st)
  | some snap =>
    let st1 := { st with snapshots := st.snapshots.dropLast, databases := snap }
    match st.selected with
    | none => (.ok (.message .rolledBack), st1)
    | some id =>
      if snap.any (fun d => d.id = id) then (.ok (.message .rolledBack), st1)
      else (.ok (.message .rolledBack), { st1 with selected := none })

/-! ## Dispatcher -/

/-- The sanitizer of parseAndExecuteQuery: trim, then the replace of a
trailing semicolon followed only by whitespace. -/
def stripTrailingSemicolon (s : String) : String :=
  match (s.data.reverse.dropWhile jsSpaceChar) with
  | ';' :: r => String.mk r.reverse
  | _ => s

/-- The sanitized statement text: trim, then strip a trailing
semicolon. -/
def sanitizeQuery (query : String) : String :=
  stripTrailingSemicolon (jsTrim query)

/-- The uppercased sanitized text the dispatcher classifies by. -/
def dispatchKey (query : String) : String := jsToUpper (sanitizeQuery query)

/-- parseAndExecuteQuery: classify the sanitized statement by its
uppercased leading keyword, in the source order of the if chain, and run
the matching executor.  Statement-clock values (the Date.now readings
used for fresh ids and timestamps) are supplied by the caller. -/
def parseAndExecuteQuery (query : String) (database : Database) (now : Nat)
    (st : DbState) : Outcome × DbState :=
  if jsStartsWith (dispatchKey query) "SELECT" then
    (executeSelectQuery (sanitizeQuery query) database, st)
  else if jsStartsWith (dispatchKey query) "INSERT" then
    executeInsertQuery (sanitizeQuery query) database now st
  else if jsStartsWith (dispatchKey query) "UPDATE" then
    executeUpdateQuery (sanitizeQuery query) database st
  else if jsStartsWith (dispatchKey query) "DELETE" then
    executeDeleteQuery (sanitizeQuery query) database st
  else if jsStartsWith (dispatchKey query) "CREATE TABLE" then
    executeCreateTableQuery (sanitizeQuery query) database now st
  else if jsStartsWith (dispatchKey query) "CREATE DATABASE" then
    executeCreateDatabaseQuery (sanitizeQuery query) now st
  else if jsStartsWith (dispatchKey query) "DROP DATABASE" then
    executeDropDatabaseQuery (sanitizeQuery query) st
  else if jsStartsWith (dispatchKey query) "USE" then
    executeUseDatabaseQuery (sanitizeQuery query) st
  else if jsStartsWith (dispatchKey query) "DROP TABLE" then
    executeDropTableQuery (sanitizeQuery query) database st
  else if jsStartsWith (dispatchKey query) "GRANT" then
    executeGrantQuery (sanitizeQuery query) database now st
  else if jsStartsWith (dispatchKey query) "REVOKE" then
    executeRevokeQuery (sanitizeQuery query) database now st
  else if jsStartsWith (dispatchKey query) "BEGIN" then executeBeginQuery st
  else if jsStartsWith (dispatchKey query) "COMMIT" then executeCommitQuery st
  else if jsStartsWith (dispatchKey query) "ROLLBACK" then executeRollbackQuery st
  else (.error .unsupportedQueryType, st)

/-- executeQuery: fail without a selected database or on an empty trimmed
statement, otherwise parse and execute; a thrown error surfaces as the
error outcome with whatever state the executor left behind. -/
def runQuery (query : String) (now : Nat) (st : DbState) : Outcome × DbState :=
  match getSelectedDatabase st with
  | none => (.error .noDatabaseSelected, st)
  | some database =>
    if jsTrim query = "" then (.error .emptyQuery, st)
    else parseAndExecuteQuery (jsTrim query) database now st

/-! ## The form coercion path of main.js -/

/-- Normalization of an ISO calendar date string of the exact shape
year-month-day with two-digit month in range and two-digit day up to 31;
the Date constructor of main.js accepts more formats and checks exact
calendar lengths, but only this shape is exercised here, and every other
input is treated as a parse failure, which coerceValueByType answers by
returning the text unchanged. -/
def isoDateCheck (v : String) : Bool :=
  match v.data with
  | [y1, y2, y3, y4, '-', m1, m2, '-', d1, d2] =>
    digitChar y1 && digitChar y2 && digitChar y3 && digitChar y4 &&
    digitChar m1 && digitChar m2 && digitChar d1 && digitChar d2 &&
    decide (1 ≤ digitsVal [m1, m2] ∧ digitsVal [m1, m2] ≤ 12) &&
    decide (1 ≤ digitsVal [d1, d2] ∧ digitsVal [d1, d2] ≤ 31)
  | _ => false

/-- The toFixed rounding used by the number branch: the integer closest
to the scaled value, with ties resolved towards the larger integer, then
divided back; a negative digit count is out of range in JavaScript and is
returned unrounded here (never exercised). -/
def JsNumber.toFixed (x : JsNumber) (f : Int) : JsNumber :=
  if f < 0 then x
  else
    let m : Nat := 10 ^ f.toNat
    { num := Int.fdiv (2 * x.num * (m : Int) + (x.den : Int)) (2 * (x.den : Int)),
      den := m }

/-- coerceValueByType of main.js: trim the raw form text and coerce it by
the column's base type.  Numbers fall back to zero on NaN and are rounded
to the scale when both precision and scale are declared; booleans test
membership of the lowercased text in the accepted list; dates and
datetimes return the text unchanged on parse failure and an ISO
normalization on success; text stays the trimmed string. -/
def coerceValueByType (rawValue : String) (column : Column) : Value :=
  let v := jsTrim rawValue
  match column.type with
  | .number =>
    match jsStringToNumber v with
    | none => .num (jsInt 0)
    | some num =>
      match column.scale, column.precision with
      | some s, some _ => .num (num.toFixed s)
      | _, _ => .num num
  | .boolean => .bool (["1", "true", "yes", "y", "on"].contains (jsToLower v))
  | .date => .str v
  | .datetime =>
    if isoDateCheck v then .str (v ++ "T00:00:00.000Z") else .str v
  | .text => .str v

/-- The per-cell computation of the addRow and editRow form handlers of
main.js: coerce the raw input, then truncate a string value of a text
column whose declared length is truthy and exceeded. -/
def formCellValue (raw : String) (column : Column) : Value :=
  let v := coerceValueByType raw column
  match v, column.type, column.length with
  | .str s, .text, some n =>
    if !(n = 0) && decide ((s.data.length : Int) > n) then .str (jsSubstring s 0 n)
    else .str s
  | other, _, _ => other

/-- The editRow form handler of main.js: recompute every cell of the row
from the submitted form inputs (one text input per column id), then store
the row back into the selected table and persist. -/
def editRowForm (tableId rowId : String) (inputs : String → String)
    (st : DbState) : DbState :=
  match getSelectedDatabase st with
  | none => st
  | some selectedDb =>
    match selectedDb.tables.find? (fun t => t.id = tableId) with
    | none => st
    | some table =>
      match table.rows.find? (fun r => r.id = rowId) with
      | none => st
      | some row =>
        let newRow := table.columns.foldl
          (fun (r : Row) col => r.setCell col.id (formCellValue (inputs col.id) col)) row
        match updateStoredTable selectedDb.id tableId
            (fun t => { t with rows :=
              updateFirstOrSkip (fun r => r.id = rowId) (fun _ => newRow) t.rows })
            st.databases with
        | none => st
        | some dbs => { st with databases := dbs }

/-! ## Claim-side definitions

The claim about the type parser is settled by comparing the code-side
keyword chain against a mapping written from the words of the
specification (one combined number keyword set). -/

/-- Whether a string begins with a word character (letter, digit or
underscore). -/
def startsWithWordChar (s : String) : Bool :=
  match s.data with
  | [] => false
  | c :: _ => wordChar c

/-- The leading word-character token of a string. -/
def leadingWordToken (s : String) : String :=
  String.mk (s.data.takeWhile wordChar)

/-- The keyword-to-baseType mapping exactly as the specification words it:
one set of ten number keywords, the text keywords, the boolean keywords,
DATE, the datetime keywords, and a permissive text fallback. -/
def specKeywordBaseType (kw : String) : BaseType :=
  if ["INT", "INTEGER", "BIGINT", "SMALLINT", "TINYINT",
      "DECIMAL", "NUMERIC", "FLOAT", "DOUBLE", "REAL"].contains kw then .number
  else if ["CHAR", "NCHAR", "VARCHAR", "NVARCHAR", "TEXT", "STRING"].contains kw then .text
  else if ["BOOL", "BOOLEAN"].contains kw then .boolean
  else if kw = "DATE" then .date
  else if ["DATETIME", "TIMESTAMP"].contains kw then .datetime
  else .text

/-! ## Helper lemmas -/

/-- Boolean membership distributes over list append. -/
theorem contains_append_eq (l1 l2 : List String) (a : String) :
    (l1 ++ l2).contains a = (l1.contains a || l2.contains a) := by
  induction l1 with
  | nil => simp
  | cons x xs ih =>
    simp only [List.cons_append, List.contains_cons, ih, Bool.or_assoc]

/-- The code-side keyword chain agrees with the specification-side
mapping on every token. -/
theorem baseTypeForToken_eq_spec (kw : String) :
    baseTypeForToken kw = specKeywordBaseType kw := by
  unfold baseTypeForToken specKeywordBaseType
  have h : (["INT", "INTEGER", "BIGINT", "SMALLINT", "TINYINT",
      "DECIMAL", "NUMERIC", "FLOAT", "DOUBLE", "REAL"] : List String).contains kw =
      ((["INT", "INTEGER", "BIGINT", "SMALLINT", "TINYINT"] : List String).contains kw ||
       (["DECIMAL", "NUMERIC", "FLOAT", "DOUBLE", "REAL"] : List String).contains kw) :=
    contains_append_eq ["INT", "INTEGER", "BIGINT", "SMALLINT", "TINYINT"]
      ["DECIMAL", "NUMERIC", "FLOAT", "DOUBLE", "REAL"] kw
  rw [h]
  cases h1 : (["INT", "INTEGER", "BIGINT", "SMALLINT", "TINYINT"] : List String).contains kw <;>
    cases h2 : (["DECIMAL", "NUMERIC", "FLOAT", "DOUBLE", "REAL"] : List String).contains kw <;>
    simp

/-- Uppercasing preserves the word-character class. -/
theorem wordChar_jsToUpperChar (c : Char) : wordChar (jsToUpperChar c) = wordChar c := by
  unfold jsToUpperChar
  split
  · rename_i h
    have hv : (Char.ofNat (c.toNat - 32)).toNat = c.toNat - 32 := by
      unfold Char.ofNat
      split
      · rfl
      · rename_i hbad
        exfalso
        exact hbad (Or.inl (by omega))
    unfold wordChar
    rw [hv]
    simp only [decide_eq_decide]
    omega
  · rfl

/-! ## Claim C9 -/

/-- Claim C9 counterexample: the claim says the type parser never fails,
but an input whose trimmed text does not begin with a word character, such
as a bare parenthesized argument, makes the anchored token pattern fail
and parseSqlType return null. -/
theorem c9_counterexample : parseSqlType "(10)" = none := rfl

/-- Claim C9 (amended): for every input type string whose trimmed text
begins with a word character, parseSqlType returns a non-null result whose
baseType follows the case-insensitive keyword mapping of the specification
applied to the leading uppercased keyword; for every other input it
returns null. -/
theorem c9_amended (s : String) :
    (startsWithWordChar (jsTrim s) = true →
      ∃ r, parseSqlType s = some r ∧
        r.baseType = specKeywordBaseType (leadingWordToken (jsToUpper (jsTrim s)))) ∧
    (startsWithWordChar (jsTrim s) = false → parseSqlType s = none) := by
  constructor
  · intro h
    obtain ⟨c, cs, hd, hw⟩ : ∃ c cs, (jsTrim s).data = c :: cs ∧ wordChar c = true := by
      unfold startsWithWordChar at h
      cases hd : (jsTrim s).data with
      | nil => rw [hd] at h; simp at h
      | cons c cs => rw [hd] at h; exact ⟨c, cs, rfl, h⟩
    unfold parseSqlType sqlTypeTokenMatch leadingWordToken
    simp only [jsToUpper, hd, List.map_cons, List.takeWhile_cons,
      wordChar_jsToUpperChar, hw, if_true, reduceCtorEq, if_false]
    exact ⟨_, rfl, baseTypeForToken_eq_spec _⟩
  · intro h
    unfold parseSqlType sqlTypeTokenMatch
    cases hd : (jsTrim s).data with
    | nil => simp [jsToUpper, hd]
    | cons c cs =>
      unfold startsWithWordChar at h
      rw [hd] at h
      have h1 : wordChar c = false := h
      simp only [jsToUpper, hd, List.map_cons, List.takeWhile_cons,
        wordChar_jsToUpperChar, h1, Bool.false_eq_true, if_false, if_true]

/-- Witness for the amended claim C9 at a concrete declared type. -/
theorem c9_amended_witness :
    startsWithWordChar (jsTrim "VARCHAR(10)") = true ∧
    (∃ r, parseSqlType "VARCHAR(10)" = some r ∧
      r.baseType = specKeywordBaseType (leadingWordToken (jsToUpper (jsTrim "VARCHAR(10)")))) ∧
    parseSqlType "VARCHAR(10)" =
      some { original := "VARCHAR(10)", baseType := .text, length := some 10,
             precision := none, scale := none } :=
  ⟨rfl, (c9_amended "VARCHAR(10)").1 rfl, by decide⟩

/-! ## Concrete fixtures -/

/-- An empty database as CREATE DATABASE would store it. -/
def sampleDb : Database :=
  { id := "db1", name := "mydb", tables := [], createdAt := "0", meta := some [] }

/-- A fresh state with one empty selected database and no snapshots. -/
def sampleState : DbState :=
  { databases := [sampleDb], snapshots := [], selected := some "db1" }

/-- A number column for the predicate-evaluator fixtures. -/
def condColumnA : Column :=
  { id := "c1", name := "a", type := .number, originalType := "INT",
    length := none, precision := none, scale := none, isPrimaryKey := false }

/-- A row whose a cell holds five. -/
def condRow1 : Row := { id := "r1", cells := [("c1", .num (jsInt 5))] }

/-- A row whose a cell holds three. -/
def condRow2 : Row := { id := "r2", cells := [("c1", .num (jsInt 3))] }

/-- A table holding the two fixture rows. -/
def condTable : Table :=
  { id := "t1", name := "T", columns := [condColumnA], rows := [condRow1, condRow2],
    createdAt := "0" }

/-! ## Claim C2 -/

/-- Claim C2: the claim says a condition of the shape column-bang-equals-
literal filters successfully, and indeed the operator switch carries a
branch for it; but the condition pattern's operator class contains only
equals, greater and less, so the exclamation mark can never be matched and
the not-equals condition is rejected as InvalidCondition, while the
equivalent angle-bracket operator works.  The code contradicts its own
not-equals switch branch, which is unreachable. -/
theorem c2_bang_equals_rejected :
    filterRowsByCondition condTable [condRow1, condRow2] "a != 3"
      = .error (.invalidCondition "a != 3") ∧
    filterRowsByCondition condTable [condRow1, condRow2] "a <> 3"
      = .ok [condRow1] :=
  ⟨rfl, rfl⟩

/-! ## Claim C1 -/

/-- State after creating table t in the fresh sample state. -/
def c1StateAfterCreate : DbState :=
  (runQuery "CREATE TABLE t (a INT, b VARCHAR(10))" 100 sampleState).2

/-- State after inserting the row five and x. -/
def c1StateAfterInsert : DbState :=
  (runQuery "INSERT INTO t (a,b) VALUES (5,'x')" 101 c1StateAfterCreate).2

/-- State after the UPDATE attempt. -/
def c1StateAfterUpdate : DbState :=
  (runQuery "UPDATE t SET a=6 WHERE a=5" 102 c1StateAfterInsert).2

/-- The column a as the CREATE TABLE statement of claim C1 stores it. -/
def c1ColumnA : Column :=
  { id := "1000", name := "a", type := .number, originalType := "INT",
    length := none, precision := none, scale := none, isPrimaryKey := false }

/-- Claim C1: the claim says the round trip CREATE TABLE, INSERT, UPDATE,
SELECT succeeds at every step with the final SELECT returning six; but the
UPDATE pattern's lazy quantifier, being followed only by an optional
group, captures a single character as the SET clause, the lone character a
splits on equals into a one-element list whose value slot is undefined,
and reading startsWith on it crashes (modelled by the TypeError error).
The first two steps succeed, the UPDATE fails, and the subsequent SELECT
still returns the value five. -/
theorem c1_roundtrip_update_crashes :
    (runQuery "CREATE TABLE t (a INT, b VARCHAR(10))" 100 sampleState).1
      = .ok (.message (.tableCreated "t")) ∧
    (runQuery "INSERT INTO t (a,b) VALUES (5,'x')" 101 c1StateAfterCreate).1
      = .ok (.message .rowInserted) ∧
    (runQuery "UPDATE t SET a=6 WHERE a=5" 102 c1StateAfterInsert).1
      = .error .jsTypeError ∧
    (runQuery "SELECT a FROM t" 103 c1StateAfterUpdate).1
      = .ok (.table [c1ColumnA]
          [{ id := "101", cells := [("1000", .num (jsInt 5)), ("1001", .str "x")] }] 1) :=
  ⟨rfl, rfl, rfl, rfl⟩

/-! ## Claim C8 -/

/-- The column a as CREATE TABLE t (a VARCHAR(3)) stores it. -/
def c8Column : Column :=
  { id := "100", name := "a", type := .text, originalType := "VARCHAR(3)",
    length := some 3, precision := none, scale := none, isPrimaryKey := false }

/-- State after creating the VARCHAR(3) table. -/
def c8StateAfterCreate : DbState :=
  (runQuery "CREATE TABLE t (a VARCHAR(3))" 10 sampleState).2

/-- State after the raw SQL INSERT of a ten-character literal. -/
def c8StateAfterInsert : DbState :=
  (runQuery "INSERT INTO t (a) VALUES ('abcdefghij')" 11 c8StateAfterCreate).2

/-- Claim C8: after CREATE TABLE t (a VARCHAR(3)), a raw SQL INSERT of a
ten-character literal stores the text unmodified, while the form
coercion path of the row editor truncates the same text to the declared
length of three. -/
theorem c8_truncation_split :
    (runQuery "CREATE TABLE t (a VARCHAR(3))" 10 sampleState).1
      = .ok (.message (.tableCreated "t")) ∧
    (runQuery "INSERT INTO t (a) VALUES ('abcdefghij')" 11 c8StateAfterCreate).1
      = .ok (.message .rowInserted) ∧
    c8StateAfterInsert.databases
      = [{ sampleDb with tables :=
            [{ id := "10", name := "t", columns := [c8Column],
               rows := [{ id := "11", cells := [("100", .str "abcdefghij")] }],
               createdAt := "10" }] }] ∧
    formCellValue "abcdefghij" c8Column = .str "abc" ∧
    (editRowForm "10" "11" (fun _ => "abcdefghij") c8StateAfterInsert).databases
      = [{ sampleDb with tables :=
            [{ id := "10", name := "t", columns := [c8Column],
               rows := [{ id := "11", cells := [("100", .str "abc")] }],
               createdAt := "10" }] }] :=
  ⟨rfl, rfl, rfl, rfl, rfl⟩

/-! ## Claim C3 -/

/-- A successful INSERT leaves the snapshot stack it found extended by
exactly the databases it found (the push happens before anything else and
nothing later touches the stack). -/
theorem insert_snapshots_of_ok (q : String) (db : Database) (now : Nat)
    (st : DbState) (m : QueryResult) (st2 : DbState)
    (h : executeInsertQuery q db now st = (.ok m, st2)) :
    st2.snapshots = st.snapshots ++ [st.databases] ∧ st2.selected = st.selected := by
  unfold executeInsertQuery at h
  cases hres : insertResult q db now (pushSnapshot st).databases with
  | error e =>
    rw [hres] at h
    simp at h
  | ok dbs =>
    rw [hres] at h
    simp only [Prod.mk.injEq, Except.ok.injEq] at h
    obtain ⟨-, h2⟩ := h
    subst h2
    exact ⟨rfl, rfl⟩

/-- Claim C3: for every starting state, executing BEGIN, then any INSERT
that succeeds against the selected database, then ROLLBACK restores the
stored databases (hence every table and its rows) to exactly their
pre-INSERT contents, because the INSERT pushes its own snapshot after the
one pushed by BEGIN and ROLLBACK pops exactly that one. -/
theorem c3_begin_insert_rollback (st : DbState) (db : Database) (q : String)
    (now : Nat) (m : QueryResult) (st2 : DbState)
    (h : executeInsertQuery q db now (executeBeginQuery st).2 = (.ok m, st2)) :
    (executeRollbackQuery st2).2.databases = st.databases := by
  obtain ⟨hsnap, -⟩ := insert_snapshots_of_ok _ _ _ _ _ _ h
  unfold executeRollbackQuery
  have hb : (executeBeginQuery st).2.snapshots = st.snapshots ++ [st.databases] := rfl
  have hbd : (executeBeginQuery st).2.databases = st.databases := rfl
  rw [hb, hbd] at hsnap
  rw [hsnap, List.getLast?_concat]
  cases st2.selected with
  | none => rfl
  | some id =>
    by_cases hany : st.databases.any (fun d => d.id = id) = true
    · simp [hany]
    · simp [hany]

/-- The stored one-row table after the C8 insert, shared by the C3
witness as the selected database value an executor receives. -/
def c8StoredDb : Database :=
  { sampleDb with tables :=
      [{ id := "10", name := "t", columns := [c8Column],
         rows := [{ id := "11", cells := [("100", .str "abcdefghij")] }],
         createdAt := "10" }] }

/-- Witness for claim C3: a concrete BEGIN, INSERT, ROLLBACK round trip
on the ten-character-literal table restores the one-row table. -/
theorem c3_begin_insert_rollback_witness :
    (executeRollbackQuery
      (executeInsertQuery "INSERT INTO t (a) VALUES ('zz')" c8StoredDb 21
        (executeBeginQuery c8StateAfterInsert).2).2).2.databases
      = c8StateAfterInsert.databases :=
  c3_begin_insert_rollback c8StateAfterInsert c8StoredDb
    "INSERT INTO t (a) VALUES ('zz')" 21 (.message .rowInserted) _ (by rfl)

/-! ## Claim C5 -/

/-- Claim C5: executing CREATE DATABASE with a case-insensitively
colliding name returns the benign already-exists message under
IF NOT EXISTS and the DatabaseAlreadyExists error otherwise, in both
cases leaving the whole state (databases, snapshots, selection)
untouched; with no collision it succeeds, appends the new database to the
stored set, and makes it the active selection. -/
theorem c5_create_database (st : DbState) (now : Nat) (ifNE : Bool) (name : String) :
    (st.databases.any (fun d => jsToLower d.name = jsToLower name) = true →
      createDatabaseCore true name now st
        = (.ok (.message (.databaseAlreadyExistsBenign name)), st) ∧
      createDatabaseCore false name now st
        = (.error (.databaseAlreadyExists name), st)) ∧
    (st.databases.any (fun d => jsToLower d.name = jsToLower name) = false →
      (createDatabaseCore ifNE name now st).1
        = .ok (.message (.databaseCreated name)) ∧
      (createDatabaseCore ifNE name now st).2.databases
        = st.databases ++ [{ id := toString now, name := name, tables := [],
                             createdAt := toString now, meta := some [] }] ∧
      (createDatabaseCore ifNE name now st).2.selected = some (toString now)) := by
  constructor
  · intro h
    unfold createDatabaseCore
    rw [h]
    exact ⟨rfl, rfl⟩
  · intro h
    unfold createDatabaseCore
    rw [h]
    exact ⟨rfl, rfl, rfl⟩

/-- Witness for claim C5 at a concrete state: the colliding name mydb in
both modes, and the fresh name other. -/
theorem c5_create_database_witness :
    (createDatabaseCore true "MYDB" 30 sampleState
      = (.ok (.message (.databaseAlreadyExistsBenign "MYDB")), sampleState)) ∧
    (createDatabaseCore false "MYDB" 30 sampleState
      = (.error (.databaseAlreadyExists "MYDB"), sampleState)) ∧
    (createDatabaseCore false "other" 30 sampleState).2.databases
      = sampleState.databases ++ [{ id := "30", name := "other", tables := [],
                                    createdAt := "30", meta := some [] }] ∧
    (createDatabaseCore false "other" 30 sampleState).2.selected = some "30" := by
  refine ⟨((c5_create_database sampleState 30 true "MYDB").1 rfl).1,
    ((c5_create_database sampleState 30 false "MYDB").1 rfl).2, ?_, ?_⟩
  · exact ((c5_create_database sampleState 30 false "other").2 rfl).2.1
  · exact ((c5_create_database sampleState 30 false "other").2 rfl).2.2

/-! ## Claim C6 -/

/-- Claim C6: with an empty snapshot stack ROLLBACK returns the benign
nothing-to-rollback message and leaves the state unchanged; with a
nonempty stack it pops exactly the last snapshot, restores the stored
databases to it, and keeps the selection exactly when the selected id
still names a database of the restored set. -/
theorem c6_rollback (st : DbState) :
    (st.snapshots = [] →
      executeRollbackQuery st = (.ok (.message .nothingToRollback), st)) ∧
    (∀ pre last, st.snapshots = pre ++ [last] →
      (executeRollbackQuery st).1 = .ok (.message .rolledBack) ∧
      (executeRollbackQuery st).2.databases = last ∧
      (executeRollbackQuery st).2.snapshots = pre ∧
      (executeRollbackQuery st).2.selected =
        (match st.selected with
         | none => none
         | some id => if last.any (fun d => d.id = id) then some id else none)) := by
  constructor
  · intro h
    unfold executeRollbackQuery
    rw [h]
    rfl
  · intro pre last h
    unfold executeRollbackQuery
    rw [h, List.getLast?_concat, List.dropLast_concat]
    cases st.selected with
    | none => exact ⟨rfl, rfl, rfl, rfl⟩
    | some id =>
      by_cases hany : last.any (fun d => d.id = id) = true
      · simp [hany]
      · simp [hany]

/-- Witness for claim C6: the empty stack on the fresh sample state, and
a singleton stack holding the empty database set, which forces the
selection clear. -/
theorem c6_rollback_witness :
    executeRollbackQuery sampleState = (.ok (.message .nothingToRollback), sampleState) ∧
    (executeRollbackQuery { sampleState with snapshots := [[]] }).2.databases = [] ∧
    (executeRollbackQuery { sampleState with snapshots := [[]] }).2.selected = none := by
  refine ⟨(c6_rollback sampleState).1 rfl, ?_, ?_⟩
  · exact ((c6_rollback { sampleState with snapshots := [[]] }).2 [] [] rfl).2.1
  · have h := ((c6_rollback { sampleState with snapshots := [[]] }).2 [] [] rfl).2.2.2
    simpa using h

/-! ## Claim C4 -/

/-- Claim C4: every statement the dispatcher classifies as SELECT leaves
the state (databases, snapshot stack, selection) exactly as it was, and
the particular statement SELECT name FROM missingTable, run with a
selected database that has no table of that name, fails with the
TableNotFound error while still leaving the state unchanged. -/
theorem c4_select_frame (q : String) (now : Nat) (st : DbState)
    (hq : jsStartsWith (dispatchKey (jsTrim q)) "SELECT" = true) :
    (runQuery q now st).2 = st ∧
    (∀ db, getSelectedDatabase st = some db →
      (∀ t ∈ db.tables, jsToLower t.name ≠ "missingtable") →
      runQuery "SELECT name FROM missingTable" now st
        = (.error (.tableNotFound "missingTable"), st)) := by
  constructor
  · unfold runQuery
    cases hsel : getSelectedDatabase st with
    | none => rfl
    | some db =>
      dsimp only
      by_cases he : jsTrim q = ""
      · rw [if_pos he]
      · rw [if_neg he]
        unfold parseAndExecuteQuery
        simp only [hq, if_true]
  · intro db hdb hmt
    have hfind : db.tables.find?
        (fun t => jsToLower t.name = jsToLower "missingTable") = none := by
      apply List.find?_eq_none.mpr
      intro t ht
      rw [show jsToLower "missingTable" = "missingtable" from rfl]
      exact fun hc => hmt t ht (by simpa using hc)
    have hsel : executeSelectQuery "SELECT name FROM missingTable" db
        = .error (.tableNotFound "missingTable") := by
      have hparse : executeSelectQuery "SELECT name FROM missingTable" db
          = selectCore ["name"] "missingTable" none db := rfl
      rw [hparse]
      unfold selectCore
      rw [hfind]
    have hdisp : ∀ dbx : Database, parseAndExecuteQuery "SELECT name FROM missingTable" dbx now st
        = (executeSelectQuery "SELECT name FROM missingTable" dbx, st) := fun _ => rfl
    unfold runQuery
    rw [hdb]
    dsimp only
    rw [if_neg (by decide : ¬ (jsTrim "SELECT name FROM missingTable" = "")),
      (by decide : jsTrim "SELECT name FROM missingTable" = "SELECT name FROM missingTable"),
      hdisp db, hsel]

/-- Witness for claim C4 at a concrete SELECT on the fresh sample
state. -/
theorem c4_select_frame_witness :
    (runQuery "SELECT a FROM t" 0 sampleState).2 = sampleState ∧
    runQuery "SELECT name FROM missingTable" 0 sampleState
      = (.error (.tableNotFound "missingTable"), sampleState) := by
  have h := c4_select_frame "SELECT a FROM t" 0 sampleState rfl
  exact ⟨h.1, h.2 sampleDb rfl (by intro t ht; simp [sampleDb] at ht)⟩

/-! ## Claim C7 -/

/-- When the first match of a predicate is mutated and the mutation
preserves the predicate, the mutated element is the first match of the
result. -/
theorem updateFirst_find (p : α → Bool) (f : α → α) (l : List α) (x : α)
    (hx : l.find? p = some x) (hf : p (f x) = true) :
    ∃ l2, updateFirst p f l = some l2 ∧ l2.find? p = some (f x) := by
  induction l with
  | nil => simp at hx
  | cons a t ih =>
    by_cases hpa : p a = true
    · rw [List.find?_cons_of_pos _ hpa] at hx
      obtain rfl := Option.some.inj hx
      refine ⟨f a :: t, ?_, ?_⟩
      · unfold updateFirst
        rw [if_pos hpa]
      · rw [List.find?_cons_of_pos _ hf]
    · have hpa' : ¬ p a = true := hpa
      rw [List.find?_cons_of_neg _ hpa'] at hx
      obtain ⟨l2, h1, h2⟩ := ih hx
      refine ⟨a :: l2, ?_, ?_⟩
      · unfold updateFirst
        rw [if_neg hpa', h1]
        rfl
      · rw [List.find?_cons_of_neg _ hpa']
        exact h2

/-- When every element of a list fails a predicate and a final appended
element satisfies it, that element is the first match. -/
theorem find?_append_last (l : List α) (x : α) (p : α → Bool)
    (h : ∀ a ∈ l, ¬ p a = true) (hx : p x = true) : (l ++ [x]).find? p = some x := by
  rw [List.find?_append, List.find?_eq_none.mpr h]
  simp only [Option.none_or]
  rw [List.find?_cons_of_pos _ hx]

/-- The star expansion always passes the column validation: every
expanded name is the name of a column of the table. -/
theorem star_validation_none (cols : List Column) :
    (cols.map (fun c => c.name)).find?
      (fun col => !(col = "*") &&
        !((cols.map (fun c => jsToLower c.name)).contains (jsToLower col))) = none := by
  apply List.find?_eq_none.mpr
  intro col hcol
  obtain ⟨c, hc, rfl⟩ := List.mem_map.mp hcol
  intro hcontra
  rw [Bool.and_eq_true] at hcontra
  obtain ⟨-, h2⟩ := hcontra
  rw [Bool.not_eq_true'] at h2
  have hmem : jsToLower c.name ∈ cols.map (fun c => jsToLower c.name) :=
    List.mem_map.mpr ⟨c, hc, rfl⟩
  unfold List.contains at h2
  exact Bool.false_ne_true (h2.symm.trans (List.elem_eq_true_of_mem hmem))

/-- Projecting a column list by membership of its own names is the
identity. -/
theorem filter_self_names (cols : List Column) :
    cols.filter (fun c => (cols.map (fun c2 => c2.name)).contains c.name) = cols :=
  List.filter_eq_self.mpr fun c hc =>
    List.elem_eq_true_of_mem (List.mem_map.mpr ⟨c, hc, rfl⟩)

/-- Claim C7: whenever the CREATE TABLE core (whose definition list was
split on top-level commas only) succeeds against the selected database, a
following SELECT star on the created table name returns exactly the
declared columns in declaration order, with no rows. -/
theorem c7_create_then_select_star (tableName defsRaw : String) (db : Database)
    (now : Nat) (st : DbState) (res : QueryResult) (st2 : DbState)
    (hsel : getSelectedDatabase st = some db)
    (h : createTableCore tableName defsRaw db now st = (.ok res, st2)) :
    ∃ cols db2,
      parseColumnDefs now (splitTopLevelCommas defsRaw) 0 = .ok cols ∧
      getSelectedDatabase st2 = some db2 ∧
      selectCore ["*"] tableName none db2 = .ok (.table cols [] 0) := by
  unfold createTableCore at h
  by_cases hex : db.tables.any (fun t => jsToLower t.name = jsToLower tableName) = true
  · rw [if_pos hex] at h
    simp at h
  · have hex' : db.tables.any (fun t => jsToLower t.name = jsToLower tableName) = false :=
      Bool.not_eq_true _ ▸ eq_false_of_ne_true hex
    rw [if_neg hex] at h
    cases hp : parseColumnDefs now (splitTopLevelCommas defsRaw) 0 with
    | error e =>
      rw [hp] at h
      simp at h
    | ok cols =>
      rw [hp] at h
      dsimp only at h
      cases hu : updateFirst (fun d => d.id = db.id)
          (fun d => { d with tables := d.tables ++
            [{ id := toString now, name := tableName, columns := cols, rows := [],
               createdAt := toString now }] }) st.databases with
      | none =>
        rw [hu] at h
        simp at h
      | some dbs =>
        rw [hu] at h
        simp only [Prod.mk.injEq, Except.ok.injEq] at h
        obtain ⟨-, hst2⟩ := h
        subst hst2
        unfold getSelectedDatabase at hsel
        cases hsid : st.selected with
        | none =>
          rw [hsid] at hsel
          simp at hsel
        | some sid =>
          rw [hsid] at hsel
          simp only [Option.some_bind] at hsel
          have hid : db.id = sid := by
            have := List.find?_some hsel
            simpa using this
          subst hid
          obtain ⟨dbs2, hu2, hfind2⟩ := updateFirst_find
            (fun d => d.id = db.id)
            (fun d => { d with tables := d.tables ++
              [{ id := toString now, name := tableName, columns := cols, rows := [],
                 createdAt := toString now }] })
            st.databases db hsel (by simp)
          rw [hu] at hu2
          obtain rfl := Option.some.inj hu2
          have hsel2 : getSelectedDatabase
              { databases := dbs, snapshots := st.snapshots, selected := some db.id }
              = some { db with tables := db.tables ++
                  [{ id := toString now, name := tableName, columns := cols, rows := [],
                     createdAt := toString now }] } := by
            unfold getSelectedDatabase
            simpa using hfind2
          refine ⟨cols, _, rfl, hsel2, ?_⟩
          unfold selectCore
          rw [find?_append_last _ _ _
            (fun t ht => by
              have := List.any_eq_false.mp hex' t ht
              simpa using this)
            (by simp)]
          dsimp only
          rw [if_pos (show (["*"] : List String).head? = some "*" from rfl),
            star_validation_none]
          dsimp only [Except.map]
          rw [filter_self_names]
          rfl

/-- Witness for claim C7: the concrete CREATE TABLE of claim C1,
whose DECIMAL-free definition list splits into two columns, followed by
the star selection. -/
theorem c7_create_then_select_star_witness :
    ∃ cols db2,
      parseColumnDefs 100 (splitTopLevelCommas "a INT, b DECIMAL(10,2)") 0 = .ok cols ∧
      getSelectedDatabase
        (createTableCore "t" "a INT, b DECIMAL(10,2)" sampleDb 100 sampleState).2
        = some db2 ∧
      selectCore ["*"] "t" none db2 = .ok (.table cols [] 0) :=
  c7_create_then_select_star "t" "a INT, b DECIMAL(10,2)" sampleDb 100 sampleState
    (.message (.tableCreated "t")) _ rfl (by rfl)

/-! ## Claim C10 -/

/-- Claim C10 (implicit): in a SELECT with an explicit column list,
existence validation is case-insensitive while the result projection
matches names case-sensitively, so a request that names an existing
column in a different letter case succeeds without ColumnNotFound yet the
returned column set omits every column of that name (provided the exact
spelling is not also requested). -/
theorem c10_case_mismatch_projection (db : Database) (tbl : Table) (cols : List String)
    (tname req : String) (c : Column)
    (htbl : db.tables.find? (fun t => jsToLower t.name = jsToLower tname) = some tbl)
    (hstar : cols.head? ≠ some "*")
    (hreq : req ∈ cols)
    (hc : c ∈ tbl.columns)
    (hlow : jsToLower req = jsToLower c.name)
    (hne : req ≠ c.name)
    (hnotexact : c.name ∉ cols)
    (hvalid : ∀ x ∈ cols, x ≠ req →
      x = "*" ∨ jsToLower x ∈ tbl.columns.map (fun cc => jsToLower cc.name)) :
    ∃ resCols, selectCore cols tname none db
        = .ok (.table resCols tbl.rows tbl.rows.length) ∧
      ∀ col ∈ resCols, col.name ≠ c.name := by
  unfold selectCore
  rw [htbl]
  dsimp only
  rw [if_neg hstar]
  have hval : cols.find? (fun col => !(col = "*") &&
      !((tbl.columns.map (fun cc => jsToLower cc.name)).contains (jsToLower col))) = none := by
    apply List.find?_eq_none.mpr
    intro x hx hcontra
    rw [Bool.and_eq_true] at hcontra
    obtain ⟨h1, h2⟩ := hcontra
    rw [Bool.not_eq_true'] at h2
    have hxmem : jsToLower x ∈ tbl.columns.map (fun cc => jsToLower cc.name) := by
      by_cases hxr : x = req
      · subst hxr
        rw [hlow]
        exact List.mem_map.mpr ⟨c, hc, rfl⟩
      · rcases hvalid x hx hxr with h3 | h3
        · subst h3
          simp at h1
        · exact h3
    unfold List.contains at h2
    exact Bool.false_ne_true (h2.symm.trans (List.elem_eq_true_of_mem hxmem))
  rw [hval]
  dsimp only [Except.map]
  refine ⟨_, rfl, ?_⟩
  intro col hcol heq
  have hmem := (List.mem_filter.mp hcol).2
  rw [heq] at hmem
  unfold List.contains at hmem
  exact hnotexact (List.mem_of_elem_eq_true hmem)

/-- The database holding the predicate-evaluator fixture table, for the
C10 witness. -/
def c10Db : Database :=
  { id := "d1", name := "mydb", tables := [condTable], createdAt := "0", meta := none }

/-- Witness for claim C10: requesting column A from a table whose column
is named a succeeds and returns no columns. -/
theorem c10_case_mismatch_projection_witness :
    ∃ resCols, selectCore ["A"] "T" none c10Db
        = .ok (.table resCols condTable.rows condTable.rows.length) ∧
      ∀ col ∈ resCols, col.name ≠ condColumnA.name :=
  c10_case_mismatch_projection c10Db condTable ["A"] "T" "A" condColumnA
    (by rfl) (by decide) (by decide) (by decide) (by decide) (by decide) (by decide)
    (by decide)

end RDBMS
